import Mathlib

/-!
Shallow embedding of `msc_pygeoapi/provider/cmip5_xarray.py` (the `CMIP5Provider`
class and the module-level `open_data` helper), together with theorems settling
the claims about it.

Modelling conventions:
* The filesystem / xarray open operation is an environment `env : String → Option Dataset`:
  `env loc = some ds` means `xarray.open_mfdataset(loc)` succeeds (after the
  float32→float64 normalization applied by the external collaborator),
  `env loc = none` means the open raises.
* Numeric coordinate values are `Int` (the claims do not depend on fractional
  values); time coordinates are months since the 1970 epoch, which is exactly
  the quantity the code extracts with `astype('datetime64[M]').astype(int)`.
* Python string operations (`replace`, `in`, `split`, `zfill`, `<`) are embedded
  as structural-recursive functions on `List Char` so that all definitions
  evaluate inside the kernel.
* Provider state (`self.data`, `self._data`, ...) is threaded explicitly; the
  field `openCount` counts invocations of the resolver (`open_data`), making the
  side effect "the dataset was re-resolved" observable in the pure embedding.
* Raised exceptions become `Except PError`; the constructors mirror the
  pygeoapi error hierarchy (`ProviderQueryError`, `ProviderNoDataError`,
  `ProviderConnectionError`) plus `genericError` for ordinary, unwrapped Python
  exceptions (TypeError / KeyError / IndexError / ValueError).
-/

/-! ## Python string primitives, embedded structurally -/

/-- Character-list version of Python `str.startswith` (prefix test). -/
def listStarts : List Char → List Char → Bool
  | [], _ => true
  | _ :: _, [] => false
  | a :: as, b :: bs => a = b && listStarts as bs

/-- Substring search: `subAux pat s` is Python `pat in s`. -/
def subAux (pat : List Char) : List Char → Bool
  | [] => pat.isEmpty
  | c :: rest => listStarts pat (c :: rest) || subAux pat rest

/-- Python `pat in s` on strings. -/
def containsSub (s pat : String) : Bool := subAux pat.data s.data

/-- One fuel-indexed step list for Python `str.replace` (all non-overlapping
occurrences, scanned left to right).  `fuel = s.length` always suffices because
every step consumes at least one character.  (The code never calls `replace`
with an empty pattern, so the `old = []` guard is never exercised.) -/
def replaceAux (old new : List Char) : Nat → List Char → List Char
  | _, [] => []
  | 0, s => s
  | Nat.succ fuel, c :: cs =>
    if old ≠ [] ∧ listStarts old (c :: cs) then
      new ++ replaceAux old new fuel ((c :: cs).drop old.length)
    else
      c :: replaceAux old new fuel cs

/-- Python `s.replace(old, new)`. -/
def pyReplace (s old new : String) : String :=
  ⟨replaceAux old.data new.data s.data.length s.data⟩

/-- Python `s.split(sep)` for a single-character separator (the code only
splits on `'/'` and the model parser splits on `'-'`). -/
def splitOnChar (c : Char) : List Char → List (List Char)
  | [] => [[]]
  | x :: xs =>
    let r := splitOnChar c xs
    if x = c then [] :: r
    else match r with
      | h :: t => (x :: h) :: t
      | [] => [[x]]

/-- Python lexicographic `<` on strings (code-point order, as in CPython). -/
def charListLt : List Char → List Char → Bool
  | [], [] => false
  | [], _ :: _ => true
  | _ :: _, [] => false
  | a :: as, b :: bs => if a < b then true else if b < a then false else charListLt as bs

/-- Python `a < b` on strings. -/
def strLt (a b : String) : Bool := charListLt a.data b.data

/-- Python `str.lower()`. -/
def lowerStr (s : String) : String := ⟨s.data.map Char.toLower⟩

/-- Python `str.zfill(width)`: pad on the left with zeros, keeping a leading
sign in front of the padding. -/
def zfill (width : Nat) (s : String) : String :=
  if width ≤ s.length then s
  else
    match s.data with
    | c :: rest =>
      if c = '-' ∨ c = '+' then ⟨c :: (List.replicate (width - s.length) '0' ++ rest)⟩
      else ⟨List.replicate (width - s.length) '0' ++ s.data⟩
    | [] => ⟨List.replicate width '0'⟩

deriving instance DecidableEq for Except

/-! ## Data model -/

/-- A heterogeneous value as it appears in a `subsets` list: JSON decoding
gives strings for scenario/season selectors and numbers for percentile
selectors and coordinate ranges. -/
inductive SubVal where
  | num (n : Int)
  | str (s : String)
deriving DecidableEq, Repr

/-- Python `str(v)` on a subset value (identity on strings, decimal rendering
on ints, matching CPython). -/
def pyStr : SubVal → String
  | .num n => toString n
  | .str s => s

/-- One coordinate axis of an open dataset: its name, its `units` attribute
(`none` models a missing attribute, whose access raises KeyError), whether the
index is datetime64-typed (so that label lookups parse ISO strings), and its
stored coordinate values in storage order. -/
structure Axis where
  name : String
  units : Option String
  timeLike : Bool
  values : List Int
deriving DecidableEq, Repr

/-- A variable of the dataset's `variables` mapping: its name and its rank
(`len(shape)`). -/
structure Variable where
  name : String
  rank : Nat
deriving DecidableEq, Repr

/-- An open xarray dataset, reduced to the structure the provider inspects:
coordinate axes, the `variables` mapping, and the attributes of an optional
`crs` variable. -/
structure Dataset where
  coords : List Axis
  vars : List Variable
  crsEpsg : Option String
  crsInvFlat : Option Int
deriving DecidableEq, Repr

/-- `ds.coords[k].values`, as an optional lookup (`none` = KeyError). -/
def coordValues (ds : Dataset) (k : String) : Option (List Int) :=
  (ds.coords.find? (fun ax => ax.name = k)).map (fun ax => ax.values)

/-- The pygeoapi error taxonomy raised by this provider, plus ordinary
unwrapped Python exceptions. -/
inductive PError where
  | queryError (msg : String)
  | noDataError (msg : String)
  | connectionError (msg : String)
  | genericError (msg : String)
deriving DecidableEq, Repr

/-! ## Association-list helpers (Python `dict` with string keys) -/

/-- First-match association lookup (`k in d` / `d[k]`). -/
def alookup {α : Type} (k : String) : List (String × α) → Option α
  | [] => none
  | (k', v) :: rest => if k' = k then some v else alookup k rest

/-- `d.pop(k)`: drop the entry for `k`. -/
def popKey {α : Type} (k : String) : List (String × α) → List (String × α)
  | [] => []
  | (k', v) :: rest => if k' = k then popKey k rest else (k', v) :: popKey k rest

/-- `d[k] = v` on a Python dict: replace in place if present, else append. -/
def dictInsert {α : Type} : List (String × α) → String → α → List (String × α)
  | [], k, v => [(k, v)]
  | (k', v') :: rest, k, v =>
    if k' = k then (k, v) :: rest else (k', v') :: dictInsert rest k v

/-! ## The resolver: `open_data` -/

/-- Embedding of the module-level `open_data`.  The Python function wraps
`xarray.open_mfdataset` plus the float width normalization in
`try/except Exception`, and the except branch only logs (`LOGGER.error(err)`)
and falls through — so on failure the function returns `None` rather than
raising.  Hence it is exactly the environment lookup. -/
def open_data (env : String → Option Dataset) (data : String) : Option Dataset :=
  env data

/-! ## The datetime normalizer: `CMIP5Provider._to_datetime_string` -/

/-- Embedding of `_to_datetime_string`.  The native temporal sample is the
integer number of months since the 1970 epoch (`astype('datetime64[M]').astype(int)`);
`astype('datetime64[Y]').astype(int) + 1970` is its floor-division by 12 plus
1970.  A sample of `none` models an argument on which the numpy conversion
raises; the Python `except` branch logs the error and falls through, so the
function then returns `None`. -/
def toDatetimeString (locator : String) (sample : Option Int) : Option String :=
  match sample with
  | none => none
  | some m =>
    if containsSub locator "monthly_ens" then
      let month := m % 12 + 1
      let year := m / 12 + 1970
      some (toString year ++ "-" ++ zfill 2 (toString month))
    else
      some (toString (m / 12 + 1970))

/-! ## Coverage properties: `CMIP5Provider._get_coverage_properties` -/

/-- The `restime` entry: `get_time_resolution` returns `{'value': 1, 'period': ...}`
or `None`. -/
structure TimeRes where
  value : Nat
  period : String
deriving DecidableEq, Repr

/-- Embedding of `get_time_resolution`: resolution exists only when the time
axis has more than one sample; the period is `month` iff the locator carries
the `monthly_ens` marker. -/
def getTimeResolution (locator : String) (ts : List Int) : Option TimeRes :=
  if 1 < ts.length then
    some { value := 1, period := if containsSub locator "monthly_ens" then "month" else "year" }
  else none

/-- The dictionary produced by `_get_coverage_properties` (the externally
inherited `time_duration` entry belongs to the collaborator base class and is
not part of this module). -/
structure CoverageProperties where
  bbox : List Int
  timeRange : List (Option String)
  bboxCrs : String
  crsType : String
  xAxisLabel : String
  yAxisLabel : String
  timeAxisLabel : String
  width : Nat
  height : Nat
  time : Nat
  bboxUnits : String
  resx : Nat
  resy : Nat
  restime : Option TimeRes
  inverseFlattening : Option Int
  axes : List String
  fields : List String
deriving DecidableEq, Repr

/-- The coordinate scan at the top of `_get_coverage_properties`: a coordinate
named `time` (case-insensitively) is the time variable; otherwise its `units`
attribute is consulted (a missing attribute raises KeyError), `degrees_north`
marks the y variable and `degrees_east` the x variable.  Later matches
overwrite earlier ones, as in the Python loop. -/
def scanCoords : List Axis → Option String × Option String × Option String →
    Except String (Option String × Option String × Option String)
  | [], acc => .ok acc
  | ax :: rest, (tv, yv, xv) =>
    if lowerStr ax.name = "time" then scanCoords rest (some ax.name, yv, xv)
    else match ax.units with
      | none => .error "KeyError: units"
      | some u =>
        if u = "degrees_north" then scanCoords rest (tv, some ax.name, xv)
        else if u = "degrees_east" then scanCoords rest (tv, yv, some ax.name)
        else scanCoords rest (tv, yv, xv)

/-- Embedding of `_get_coverage_properties`.  `xF`/`yF`/`tF` are the
pre-specified axis field names from the provider definition (they take
precedence over auto-detection).  Every Python runtime error on this path
(attribute access on a `None` dataset, missing units, unresolved axis role,
out-of-range coordinate indexing, missing `crs` attributes) is an `Except.error`;
the constructor wraps any of them into a connection-class error. -/
def getCoverageProperties (locator : String) (xF yF tF : Option String)
    (dsOpt : Option Dataset) :
    Except String (CoverageProperties × String × String × String) :=
  match dsOpt with
  | none => .error "AttributeError: NoneType object has no attribute coords"
  | some ds =>
    match scanCoords ds.coords (none, none, none) with
    | .error e => .error e
    | .ok (tv, yv, xv) =>
      match (match xF with | some x => some x | none => xv),
            (match yF with | some y => some y | none => yv),
            (match tF with | some t => some t | none => tv) with
      | some xl, some yl, some tl =>
        match coordValues ds xl, coordValues ds yl, coordValues ds tl with
        | some xs, some ys, some ts =>
          match xs.get? 0, xs.getLast?, ys.get? 0, ys.getLast?,
                ts.get? 0, ts.getLast?, xs.get? 1, ys.get? 1 with
          | some x0, some xn, some y0, some yn, some t0, some tn, some x1, some y1 =>
            if ds.vars.any (fun v => v.name = "crs") then
              match ds.crsEpsg, ds.crsInvFlat with
              | some e, some i =>
                .ok ({ bbox := [x0, y0, xn, yn],
                       timeRange := [toDatetimeString locator (some t0),
                                     toDatetimeString locator (some tn)],
                       bboxCrs := "http://www.opengis.net/def/crs/OGC/1.3/" ++ e,
                       crsType := "ProjectedCRS",
                       xAxisLabel := xl, yAxisLabel := yl, timeAxisLabel := tl,
                       width := xs.length, height := ys.length, time := ts.length,
                       bboxUnits := "degrees",
                       resx := (x1 - x0).natAbs, resy := (y1 - y0).natAbs,
                       restime := getTimeResolution locator ts,
                       inverseFlattening := some i,
                       axes := [xl, yl, tl],
                       fields := (ds.vars.filter (fun v => 3 ≤ v.rank)).map
                                   (fun v => v.name) }, xl, yl, tl)
              | _, _ => .error "AttributeError: crs attributes missing"
            else
              .ok ({ bbox := [x0, y0, xn, yn],
                     timeRange := [toDatetimeString locator (some t0),
                                   toDatetimeString locator (some tn)],
                     bboxCrs := "http://www.opengis.net/def/crs/OGC/1.3/CRS84",
                     crsType := "GeographicCRS",
                     xAxisLabel := xl, yAxisLabel := yl, timeAxisLabel := tl,
                     width := xs.length, height := ys.length, time := ts.length,
                     bboxUnits := "degrees",
                     resx := (x1 - x0).natAbs, resy := (y1 - y0).natAbs,
                     restime := getTimeResolution locator ts,
                     inverseFlattening := none,
                     axes := [xl, yl, tl],
                     fields := (ds.vars.filter (fun v => 3 ≤ v.rank)).map
                                 (fun v => v.name) }, xl, yl, tl)
          | _, _, _, _, _, _, _, _ => .error "IndexError: coordinate index out of range"
        | _, _, _ => .error "KeyError: axis field not in coords"
      | _, _, _ => .error "KeyError: axis role unresolved"

/-! ## Provider construction: `CMIP5Provider.__init__` -/

/-- The provider definition handed to `BaseProvider.__init__`: the dataset
locator and optional pre-specified axis field names. -/
structure ProviderDef where
  data : String
  xField : Option String
  yField : Option String
  timeField : Option String
deriving DecidableEq, Repr

/-- The mutable state of a constructed provider instance.  `openCount` counts
the resolver invocations (`open_data` calls) performed on behalf of this
instance, making re-resolution observable. -/
structure ProvState where
  data : String
  dataset : Option Dataset
  props : CoverageProperties
  xField : String
  yField : String
  timeField : String
  axes : List String
  fields : List String
  openCount : Nat
deriving DecidableEq, Repr

/-- Embedding of `CMIP5Provider.__init__`: resolve the locator, derive
coverage properties, assemble the axis list (appending `scenario` when the
locator mentions `RCP`, `season` when it mentions `season`, and `percentile`
unless it mentions `avg_20years`), and record `fields`.  Any exception inside
the `try` block is re-raised as `ProviderConnectionError`. -/
def initProvider (env : String → Option Dataset) (pd : ProviderDef) :
    Except PError ProvState :=
  let data := pd.data
  let dsOpt := open_data env data
  match getCoverageProperties data pd.xField pd.yField pd.timeField dsOpt with
  | .error e => .error (.connectionError e)
  | .ok (props, xl, yl, tl) =>
    let axes0 := [props.xAxisLabel, props.yAxisLabel, props.timeAxisLabel]
    let axes1 := if containsSub data "RCP" then axes0 ++ ["scenario"] else axes0
    let axes2 := if containsSub data "season" then axes1 ++ ["season"] else axes1
    let axes3 := if containsSub data "avg_20years" then axes2 else axes2 ++ ["percentile"]
    .ok { data := data, dataset := dsOpt, props := props,
          xField := xl, yField := yl, timeField := tl,
          axes := axes3, fields := props.fields, openCount := 1 }

/-! ## Facet resolution pass (query lines handling scenario / percentile / season) -/

/-- Scenario branch of `query`.  Multi-valued selection raises
`ProviderQueryError` before anything else; a value other than `RCP2.6`/`hist`
strips the `RCP` prefix by replacement, substitutes the default `2.6` token in
the locator and re-resolves.  Errors raised inside the `try` (IndexError on an
empty list, AttributeError when `.replace` is called on an int) are re-raised
as `ProviderQueryError`.  The key is popped afterwards. -/
def facetScenario (env : String → Option Dataset) (st : ProvState)
    (subsets : List (String × List SubVal)) :
    ProvState × Except PError (List (String × List SubVal)) :=
  match alookup "scenario" subsets with
  | none => (st, .ok subsets)
  | some scenario =>
    if 1 < scenario.length then
      (st, .error (.queryError "multiple scenario are not supported"))
    else match scenario.get? 0 with
      | none => (st, .error (.queryError "IndexError: list index out of range"))
      | some (.num _) =>
        (st, .error (.queryError "AttributeError: int object has no attribute replace"))
      | some (.str s) =>
        if s = "RCP2.6" ∨ s = "hist" then (st, .ok (popKey "scenario" subsets))
        else
          let scenarioValue := pyReplace s "RCP" ""
          let data' := pyReplace st.data "2.6" scenarioValue
          ({ st with data := data', dataset := open_data env data',
                     openCount := st.openCount + 1 },
           .ok (popKey "scenario" subsets))

/-- Percentile branch of `query`.  Note there is no multiplicity check here:
any list other than `[50]` substitutes `pctl50` with `pctl{first value}` and
re-resolves.  An empty list raises IndexError inside the `try`, re-raised as
`ProviderQueryError`. -/
def facetPercentile (env : String → Option Dataset) (st : ProvState)
    (subsets : List (String × List SubVal)) :
    ProvState × Except PError (List (String × List SubVal)) :=
  match alookup "percentile" subsets with
  | none => (st, .ok subsets)
  | some percentile =>
    if percentile = [SubVal.num 50] then (st, .ok (popKey "percentile" subsets))
    else match percentile.get? 0 with
      | none => (st, .error (.queryError "IndexError: list index out of range"))
      | some v =>
        let pctl := pyStr v
        let data' := pyReplace st.data "pctl50" ("pctl" ++ pctl)
        ({ st with data := data', dataset := open_data env data',
                   openCount := st.openCount + 1 },
         .ok (popKey "percentile" subsets))

/-- Season branch of `query`: multi-valued selection raises
`ProviderQueryError`; any selection other than `['DJF']` substitutes the `DJF`
token and re-resolves. -/
def facetSeason (env : String → Option Dataset) (st : ProvState)
    (subsets : List (String × List SubVal)) :
    ProvState × Except PError (List (String × List SubVal)) :=
  match alookup "season" subsets with
  | none => (st, .ok subsets)
  | some seasonal =>
    if 1 < seasonal.length then
      (st, .error (.queryError "multiple seasons are not supported"))
    else if seasonal = [SubVal.str "DJF"] then (st, .ok (popKey "season" subsets))
    else match seasonal.get? 0 with
      | none => (st, .error (.queryError "IndexError: list index out of range"))
      | some v =>
        let season := pyStr v
        let data' := pyReplace st.data "DJF" season
        ({ st with data := data', dataset := open_data env data',
                   openCount := st.openCount + 1 },
         .ok (popKey "season" subsets))

/-- The whole facet resolution pass, in source order
(scenario, then percentile, then season).  Locator mutations performed by an
earlier branch persist even if a later branch raises, as with Python object
state. -/
def facetResolution (env : String → Option Dataset) (st : ProvState)
    (subsets : List (String × List SubVal)) :
    ProvState × Except PError (List (String × List SubVal)) :=
  match facetScenario env st subsets with
  | (st1, .error e) => (st1, .error e)
  | (st1, .ok s1) =>
    match facetPercentile env st1 s1 with
    | (st2, .error e) => (st2, .error e)
    | (st2, .ok s2) => facetSeason env st2 s2

/-! ## Structural subsetting -/

/-- A value of the `query_params` dict: a label slice or a scalar label
(the scalar case arises for a point-in-time datetime). -/
inductive QP where
  | sl (a b : SubVal)
  | pt (s : String)
deriving DecidableEq, Repr

/-- One iteration of the per-axis slice loop: look the axis up in the dataset
(KeyError on an unknown key and IndexError on an empty coordinate or a
too-short range are unwrapped Python errors), compare the first against the
last stored coordinate, and orient the slice accordingly — swapped endpoints
when the storage order is descending. -/
def orientSlice (data : Dataset) (key : String) (val : List SubVal) :
    Except PError QP :=
  match coordValues data key with
  | none => .error (.genericError "KeyError: no index for coordinate")
  | some vs =>
    match vs.head?, vs.getLast? with
    | some first, some last =>
      match val.get? 0, val.get? 1 with
      | some v0, some v1 =>
        if last < first then .ok (.sl v1 v0) else .ok (.sl v0 v1)
      | _, _ => .error (.genericError "IndexError: list index out of range")
    | _, _ => .error (.genericError "IndexError: index 0 is out of bounds")

/-- The slice-building loop over the remaining `subsets` entries, inserting
into `query_params` in iteration order. -/
def buildSubsetParamsAux (data : Dataset) (acc : List (String × QP)) :
    List (String × List SubVal) → Except PError (List (String × QP))
  | [] => .ok acc
  | (k, v) :: rest =>
    match orientSlice data k v with
    | .error e => .error e
    | .ok s => buildSubsetParamsAux data (dictInsert acc k s) rest

/-- `query_params` after the per-axis slice loop. -/
def buildSubsetParams (data : Dataset) (subsets : List (String × List SubVal)) :
    Except PError (List (String × QP)) :=
  buildSubsetParamsAux data [] subsets

/-- The bbox block: when a bbox is supplied together with named subsets on
both the x and the y axis, raise `ProviderQueryError`; otherwise overwrite the
x slice with `(bbox[0], bbox[2])` and the y slice with `(bbox[3], bbox[1])`
(the y endpoints intentionally inverted). -/
def applyBbox (st : ProvState) (subsets : List (String × List SubVal))
    (bbox : List Int) (qp : List (String × QP)) :
    Except PError (List (String × QP)) :=
  if bbox ≠ [] then
    if (alookup st.props.xAxisLabel subsets).isSome ∧
       (alookup st.props.yAxisLabel subsets).isSome ∧ 0 < bbox.length then
      .error (.queryError "bbox and subsetting by coordinates are exclusive")
    else
      match bbox.get? 0, bbox.get? 2, bbox.get? 3, bbox.get? 1 with
      | some b0, some b2, some b3, some b1 =>
        .ok (dictInsert
              (dictInsert qp st.props.xAxisLabel (.sl (.num b0) (.num b2)))
              st.props.yAxisLabel (.sl (.num b3) (.num b1)))
      | _, _, _, _ => .error (.genericError "IndexError: list index out of range")
  else .ok qp

/-- The datetime block: exclusive with a named time subset; a value containing
`/` is split into exactly two parts (any other arity raises an unwrapped
ValueError on unpacking) which are oriented ascending by Python string
comparison; a bare value becomes a scalar label.  The inserts target
`self.time_field`. -/
def applyDatetime (st : ProvState) (subsets : List (String × List SubVal))
    (dt : Option String) (qp : List (String × QP)) :
    Except PError (List (String × QP)) :=
  match dt with
  | none => .ok qp
  | some d =>
    if (alookup st.props.timeAxisLabel subsets).isSome then
      .error (.queryError "datetime and temporal subsetting are exclusive")
    else if containsSub d "/" then
      match splitOnChar '/' d.data with
      | [b, e] =>
        let bs : String := ⟨b⟩
        let es : String := ⟨e⟩
        if strLt bs es then .ok (dictInsert qp st.timeField (.sl (.str bs) (.str es)))
        else .ok (dictInsert qp st.timeField (.sl (.str es) (.str bs)))
      | _ => .error (.genericError "ValueError: too many values to unpack")
    else .ok (dictInsert qp st.timeField (.pt d))

/-- List of decimal digit characters to a number (`none` if any character is
not a digit or the list is empty). -/
def digitsToNat : List Char → Option Nat
  | [] => none
  | cs => go cs 0
where
  go : List Char → Nat → Option Nat
    | [], acc => some acc
    | c :: rest, acc =>
      if '0' ≤ c ∧ c ≤ '9' then go rest (acc * 10 + (c.toNat - '0'.toNat))
      else none

/-- Label parsing performed by the external pandas index for datetime64-typed
coordinates: an ISO `YYYY` or `YYYY-MM` string denotes a month count since the
1970 epoch.  Modelled collaborator behavior (the array library is external);
unparsable labels make the `.loc` selection raise. -/
def monthsOfIso (s : String) : Option Int :=
  match splitOnChar '-' s.data with
  | [y] => (digitsToNat y).map (fun yr => ((yr : Int) - 1970) * 12)
  | [y, mo] =>
    match digitsToNat y, digitsToNat mo with
    | some yr, some m =>
      if 1 ≤ m ∧ m ≤ 12 then some (((yr : Int) - 1970) * 12 + ((m : Int) - 1))
      else none
    | _, _ => none
  | _ => none

/-- Resolve a slice endpoint against an axis: numbers are used directly;
strings are parsed only on a datetime64-typed axis.  `none` makes the `.loc`
selection raise (caught by `query` and re-raised as `ProviderQueryError`). -/
def resolveLabel (ax : Axis) : SubVal → Option Int
  | .num n => some n
  | .str s => if ax.timeLike then monthsOfIso s else none

/-- Label-based slice on a monotonic index, as the external array library
performs it: on a descending index `slice(a, b)` keeps the stored values
between `a` and `b` in storage order (`b ≤ v ≤ a`), on an ascending index it
keeps `a ≤ v ≤ b`. -/
def applySlice (ax : Axis) (a b : SubVal) : Option (List Int) :=
  match resolveLabel ax a, resolveLabel ax b with
  | some r1, some r2 =>
    match ax.values.head?, ax.values.getLast? with
    | some first, some last =>
      if last < first then some (ax.values.filter (fun v => r2 ≤ v ∧ v ≤ r1))
      else some (ax.values.filter (fun v => r1 ≤ v ∧ v ≤ r2))
    | _, _ => some []
  | _, _ => none

/-- Scalar label selection (`.loc` with a single label): the label must parse
against a datetime64-typed axis and match at least one stored value, else the
library raises. -/
def applyPoint (ax : Axis) (s : String) : Option (List Int) :=
  match (if ax.timeLike then monthsOfIso s else none) with
  | none => none
  | some m =>
    let vs := ax.values.filter (fun v => v = m)
    if vs = [] then none else some vs

/-- Replace the stored values of the axis named `k`. -/
def updateAxis (ds : Dataset) (k : String) (vs : List Int) : Dataset :=
  { ds with coords := ds.coords.map (fun ax => if ax.name = k then { ax with values := vs } else ax) }

/-- `data.loc[query_params]`: apply every entry of the slice mapping; a
missing key or a rejected label makes the whole selection raise (re-raised by
`query` as `ProviderQueryError`). -/
def locApply (ds : Dataset) : List (String × QP) → Except String Dataset
  | [] => .ok ds
  | (k, qp) :: rest =>
    match ds.coords.find? (fun ax => ax.name = k) with
    | none => .error "KeyError: no index for coordinate"
    | some ax =>
      match qp with
      | .sl a b =>
        match applySlice ax a b with
        | none => .error "KeyError: label not resolvable"
        | some vs => locApply (updateAxis ds k vs) rest
      | .pt s =>
        match applyPoint ax s with
        | none => .error "KeyError: label not found"
        | some vs => locApply (updateAxis ds k vs) rest

/-- The conditional structural-subsetting block of `query` (triggered by a
named x/y/time subset, a bbox, or a datetime), ending in the guarded `.loc`
application whose failures surface as `ProviderQueryError`. -/
def structuralPhase (st : ProvState) (data : Dataset)
    (subsets : List (String × List SubVal)) (bbox : List Int)
    (dt : Option String) : Except PError Dataset :=
  if (alookup st.props.xAxisLabel subsets).isSome ∨
     (alookup st.props.yAxisLabel subsets).isSome ∨
     (alookup st.props.timeAxisLabel subsets).isSome ∨
     bbox ≠ [] ∨ dt.isSome then
    match buildSubsetParams data subsets with
    | .error e => .error e
    | .ok qp =>
      match applyBbox st subsets bbox qp with
      | .error e => .error e
      | .ok qp2 =>
        match applyDatetime st subsets dt qp2 with
        | .error e => .error e
        | .ok qp3 =>
          match locApply data qp3 with
          | .error msg => .error (.queryError msg)
          | .ok d => .ok d
  else .ok data

/-! ## Variable selection, output metadata and dispatch -/

/-- `self._data[[*range_subset]]`: narrow to the requested variables, keeping
coordinate variables; an unknown name raises an unwrapped KeyError. -/
def selectVars (ds : Dataset) (names : List String) : Option Dataset :=
  if names.all (fun n => ds.vars.any (fun v => v.name = n)) then
    some { ds with vars := (ds.vars.filter
            (fun v => names.contains v.name || ds.coords.any (fun ax => ax.name = v.name))) }
  else none

/-- The `out_meta` dictionary assembled before serialization.  Variable
attribute mappings are reduced to the variable names. -/
structure OutMeta where
  bbox : List Int
  time : List (Option String)
  driver : String
  height : Nat
  width : Nat
  timeSteps : Nat
  varNames : List String
deriving DecidableEq, Repr

/-- Build `out_meta` from the (possibly subsetted) result; indexing an empty
time coordinate or a missing axis raises an unwrapped Python error. -/
def buildOutMeta (st : ProvState) (d : Dataset) : Option OutMeta :=
  match coordValues d st.xField, coordValues d st.yField, coordValues d st.timeField with
  | some xs, some ys, some ts =>
    match xs.head?, xs.getLast?, ys.head?, ys.getLast?, ts.head?, ts.getLast? with
    | some x0, some x1, some y0, some y1, some t0, some t1 =>
      some { bbox := [x0, y0, x1, y1],
             time := [toDatetimeString st.data (some t0), toDatetimeString st.data (some t1)],
             driver := "xarray",
             height := ys.length, width := xs.length, timeSteps := ts.length,
             varNames := d.vars.map (fun v => v.name) }
    | _, _, _, _, _, _ => none
  | _, _, _ => none

/-- The possible return values of `query`: a CoverageJSON document
(`gen_covjson(out_meta, data, range_subset)`), zarr or NetCDF serializations
of the subsetted dataset, and the two fast-path native returns
(`_get_zarr_data(self._data)` and `read_data(self.data)`); the serializers are
external collaborators, so the constructors carry their arguments. -/
inductive QueryOutput where
  | covjson (meta : OutMeta) (ds : Dataset) (rangeSubset : List String)
  | zarrData (ds : Dataset)
  | netcdfBytes (ds : Dataset)
  | nativeZarr (handle : Option Dataset)
  | nativeFile (locator : String)
deriving DecidableEq, Repr

/-- Everything in `query` after the facet resolution pass: fast path,
variable selection, structural subsetting, emptiness check, metadata assembly
and encoder dispatch. -/
def queryMain (st : ProvState) (rangeSubset : List String)
    (subsets : List (String × List SubVal)) (bbox : List Int)
    (dt : Option String) (fmt : String) : Except PError QueryOutput :=
  if rangeSubset = [] ∧ subsets = [] ∧ fmt ≠ "json" then
    if fmt = "zarr" then .ok (.nativeZarr st.dataset)
    else .ok (.nativeFile st.data)
  else
    match st.dataset with
    | none => .error (.genericError "TypeError: NoneType object is not subscriptable")
    | some ds =>
      match selectVars ds rangeSubset with
      | none => .error (.genericError "KeyError: variable not in dataset")
      | some data =>
        match structuralPhase st data subsets bbox dt with
        | .error e => .error e
        | .ok data2 =>
          match coordValues data2 st.xField, coordValues data2 st.yField with
          | some xs, some ys =>
            if xs.length = 0 ∨ ys.length = 0 then .error (.noDataError "No data found")
            else
              match buildOutMeta st data2 with
              | none => .error (.genericError "IndexError: index 0 is out of bounds")
              | some meta =>
                if fmt = "json" then .ok (.covjson meta data2 rangeSubset)
                else if fmt = "zarr" then .ok (.zarrData data2)
                else .ok (.netcdfBytes data2)
          | _, _ => .error (.genericError "KeyError: no index for coordinate")

/-- Embedding of `CMIP5Provider.query`.  The Python signature defaults
`range_subset` to `['tas']`; an omitted argument is `none` here.  The returned
state is the provider state after the call (facet branches may have mutated
the locator and swapped the handle, and those mutations persist even when the
call raises). -/
def query (env : String → Option Dataset) (st : ProvState)
    (rangeSubsetArg : Option (List String)) (subsets : List (String × List SubVal))
    (bbox : List Int) (dt : Option String) (fmt : String) :
    ProvState × Except PError QueryOutput :=
  let rangeSubset := rangeSubsetArg.getD ["tas"]
  match facetResolution env st subsets with
  | (st1, .error e) => (st1, .error e)
  | (st1, .ok subs) => (st1, queryMain st1 rangeSubset subs bbox dt fmt)

/-! ## Concrete fixtures (used by witnesses and counterexamples) -/

/-- x axis of the fixture dataset, stored ascending. -/
def axLon : Axis := { name := "lon", units := some "degrees_east", timeLike := false, values := [10, 20] }

/-- y axis of the fixture dataset, stored descending, as is the convention in
this dataset family (the bbox block slices it `(maxY, minY)`). -/
def axLat : Axis := { name := "lat", units := some "degrees_north", timeLike := false, values := [50, 40] }

/-- time axis of the fixture dataset: two yearly samples (1970 and 1971). -/
def axTime : Axis := { name := "time", units := none, timeLike := true, values := [0, 12] }

/-- The fixture dataset: three coordinate variables of rank 1 and one data
variable `tas` of rank 3. -/
def dsMain : Dataset :=
  { coords := [axLon, axLat, axTime],
    vars := [⟨"lon", 1⟩, ⟨"lat", 1⟩, ⟨"time", 1⟩, ⟨"tas", 3⟩],
    crsEpsg := none, crsInvFlat := none }

/-- A default-encoded locator: scenario `RCP2.6`, season `DJF`,
percentile `pctl50`. -/
def locDefault : String := "cmip5_RCP2.6_DJF_pctl50.nc"

/-- Fixture environment: the default locator and its scenario/percentile
re-resolutions open fine, everything else fails to open. -/
def env0 : String → Option Dataset := fun l =>
  if l = locDefault then some dsMain
  else if l = "cmip5_RCP8.5_DJF_pctl50.nc" then some dsMain
  else if l = "cmip5_RCP2.6_DJF_pctl25.nc" then some dsMain
  else none

/-- Fixture environment in which only the default locator opens. -/
def env1 : String → Option Dataset := fun l =>
  if l = locDefault then some dsMain else none

/-- The provider state produced by constructing against `env0` and the
default locator (checked below by kernel evaluation). -/
def st0 : ProvState :=
  { data := locDefault,
    dataset := some dsMain,
    props := { bbox := [10, 50, 20, 40],
               timeRange := [some "1970", some "1971"],
               bboxCrs := "http://www.opengis.net/def/crs/OGC/1.3/CRS84",
               crsType := "GeographicCRS",
               xAxisLabel := "lon", yAxisLabel := "lat", timeAxisLabel := "time",
               width := 2, height := 2, time := 2,
               bboxUnits := "degrees", resx := 10, resy := 10,
               restime := some { value := 1, period := "year" },
               inverseFlattening := none,
               axes := ["lon", "lat", "time"],
               fields := ["tas"] },
    xField := "lon", yField := "lat", timeField := "time",
    axes := ["lon", "lat", "time", "scenario", "percentile"],
    fields := ["tas"],
    openCount := 1 }

/-- Whether an `Except` result of `query` is a success. -/
def queryOk (r : Except PError QueryOutput) : Bool :=
  match r with
  | .ok _ => true
  | .error _ => false

/-! ## Lemmas about the embedded Python string primitives -/

theorem listStarts_self_append (pat t : List Char) : listStarts pat (pat ++ t) = true := by
  induction pat with
  | nil => rfl
  | cons c cs ih => simp [listStarts, ih]

theorem subAux_of_listStarts {pat s : List Char} (h : listStarts pat s = true) :
    subAux pat s = true := by
  cases s with
  | nil =>
    cases pat with
    | nil => rfl
    | cons c cs => simp [listStarts] at h
  | cons c cs => simp [subAux, h]

theorem subAux_cons {pat s : List Char} (c : Char) (h : subAux pat s = true) :
    subAux pat (c :: s) = true := by
  simp [subAux, h]

theorem subAux_append_left {pat s : List Char} (t : List Char)
    (h : subAux pat s = true) : subAux pat (t ++ s) = true := by
  induction t with
  | nil => simpa using h
  | cons c cs ih => simpa using subAux_cons c ih

/-- A pattern that occurs nowhere is never replaced: `replaceAux` is the
identity. -/
theorem replaceAux_no_match {old s : List Char} (new : List Char) (fuel : Nat)
    (h : subAux old s = false) : replaceAux old new fuel s = s := by
  induction fuel generalizing s with
  | zero => cases s <;> rfl
  | succ fuel ih =>
    cases s with
    | nil => rfl
    | cons c cs =>
      have hs : listStarts old (c :: cs) = false := by
        by_contra hne
        have : listStarts old (c :: cs) = true := by
          cases hx : listStarts old (c :: cs) with
          | false => exact absurd hx hne
          | true => rfl
        have := subAux_of_listStarts this
        rw [this] at h
        exact Bool.true_eq_false.mp h
      have htail : subAux old cs = false := by
        have := h
        simp [subAux, hs] at this
        exact this
      simp [replaceAux, hs, ih htail]

/-- After a replacement of an occurring pattern, the replacement text occurs in
the output. -/
theorem subAux_new_replaceAux {old : List Char} (new : List Char)
    (hold : old ≠ []) :
    ∀ fuel s, subAux old s = true → s.length ≤ fuel →
      subAux new (replaceAux old new fuel s) = true := by
  intro fuel
  induction fuel with
  | zero =>
    intro s hsub hlen
    have : s = [] := List.length_eq_zero.mp (Nat.le_zero.mp hlen)
    subst this
    simp [subAux, List.isEmpty_iff] at hsub
    exact absurd hsub hold
  | succ fuel ih =>
    intro s hsub hlen
    cases s with
    | nil =>
      simp [subAux, List.isEmpty_iff] at hsub
      exact absurd hsub hold
    | cons c cs =>
      by_cases hpre : listStarts old (c :: cs) = true
      · rw [replaceAux, if_pos ⟨hold, hpre⟩]
        exact subAux_of_listStarts (listStarts_self_append new _)
      · have hpre' : listStarts old (c :: cs) = false := by
          cases hx : listStarts old (c :: cs) with
          | false => rfl
          | true => exact absurd hx hpre
        have htail : subAux old cs = true := by
          have := hsub
          simp [subAux, hpre'] at this
          exact this
        have hlen' : cs.length ≤ fuel := by
          have := hlen
          simp only [List.length_cons] at this
          omega
        rw [replaceAux, if_neg (by simp [hpre'])]
        exact subAux_cons c (ih cs htail hlen')

/-- `str.replace` with a pattern absent from the subject is the identity. -/
theorem pyReplace_no_match {s old : String} (new : String)
    (h : containsSub s old = false) : pyReplace s old new = s := by
  unfold pyReplace containsSub at *
  cases s with
  | mk data => simp [replaceAux_no_match _ _ h]

/-- `str.replace` of an occurring, non-empty pattern leaves the replacement
text in the output. -/
theorem containsSub_pyReplace {s old : String} (new : String)
    (hold : old.data ≠ []) (h : containsSub s old = true) :
    containsSub (pyReplace s old new) new = true := by
  unfold pyReplace containsSub at *
  exact subAux_new_replaceAux new.data hold s.data.length s.data h (Nat.le_refl _)

/-! ## Lemmas about the dict helpers -/

theorem alookup_dictInsert_self {α : Type} (l : List (String × α)) (k : String) (v : α) :
    alookup k (dictInsert l k v) = some v := by
  induction l with
  | nil => simp [dictInsert, alookup]
  | cons p rest ih =>
    obtain ⟨k', v'⟩ := p
    by_cases h : k' = k
    · simp [dictInsert, h, alookup]
    · simp [dictInsert, h, alookup, ih]

theorem alookup_dictInsert_ne {α : Type} (l : List (String × α)) {k k' : String}
    (v : α) (h : k' ≠ k) : alookup k (dictInsert l k' v) = alookup k l := by
  induction l with
  | nil => simp [dictInsert, alookup, h]
  | cons p rest ih =>
    obtain ⟨k0, v0⟩ := p
    by_cases h0 : k0 = k'
    · subst h0
      simp [dictInsert, alookup, h]
    · simp [dictInsert, h0, alookup, ih]

theorem alookup_popKey_self {α : Type} (l : List (String × α)) (k : String) :
    alookup k (popKey k l) = none := by
  induction l with
  | nil => rfl
  | cons p rest ih =>
    obtain ⟨k0, v0⟩ := p
    by_cases h : k0 = k
    · simpa [popKey, h] using ih
    · simp [popKey, h, alookup, ih]

theorem alookup_popKey_ne {α : Type} (l : List (String × α)) {k k' : String}
    (h : k' ≠ k) : alookup k (popKey k' l) = alookup k l := by
  induction l with
  | nil => rfl
  | cons p rest ih =>
    obtain ⟨k0, v0⟩ := p
    by_cases h0 : k0 = k'
    · have hk0 : k0 ≠ k := fun hc => h (h0.symm.trans hc)
      simp [popKey, h0, alookup, hk0, ih, h]
    · simp [popKey, h0, alookup, ih]

/-! ## Lemmas about the slice-building loop -/

theorem buildSubsetParamsAux_preserved (data : Dataset)
    (subsets : List (String × List SubVal)) :
    ∀ acc qp key, key ∉ subsets.map Prod.fst →
      buildSubsetParamsAux data acc subsets = .ok qp →
      alookup key qp = alookup key acc := by
  induction subsets with
  | nil =>
    intro acc qp key _ h
    simp [buildSubsetParamsAux] at h
    subst h
    rfl
  | cons p rest ih =>
    intro acc qp key hnm h
    obtain ⟨k, v⟩ := p
    simp only [List.map_cons, List.mem_cons, not_or] at hnm
    rw [buildSubsetParamsAux] at h
    cases ho : orientSlice data k v with
    | error e => rw [ho] at h; exact absurd h (by simp)
    | ok s =>
      rw [ho] at h
      have := ih (dictInsert acc k s) qp key hnm.2 h
      rw [this, alookup_dictInsert_ne _ _ (fun hc => hnm.1 hc.symm)]

theorem buildSubsetParamsAux_lookup (data : Dataset)
    (subsets : List (String × List SubVal)) :
    ∀ acc qp key val, (subsets.map Prod.fst).Nodup → (key, val) ∈ subsets →
      buildSubsetParamsAux data acc subsets = .ok qp →
      ∃ s, orientSlice data key val = .ok s ∧ alookup key qp = some s := by
  induction subsets with
  | nil => intro acc qp key val _ hm; exact absurd hm (by simp)
  | cons p rest ih =>
    intro acc qp key val hnd hm h
    obtain ⟨k, v⟩ := p
    rw [buildSubsetParamsAux] at h
    cases ho : orientSlice data k v with
    | error e => rw [ho] at h; exact absurd h (by simp)
    | ok s =>
      rw [ho] at h
      simp only [List.map_cons, List.nodup_cons] at hnd
      rcases List.mem_cons.mp hm with hhead | htail
      · have h1 : key = k := congrArg Prod.fst hhead
        have h2 : val = v := congrArg Prod.snd hhead
        refine ⟨s, by rw [h1, h2]; exact ho, ?_⟩
        have hout : key ∉ rest.map Prod.fst := by rw [h1]; exact hnd.1
        rw [buildSubsetParamsAux_preserved data rest _ qp key hout h, h1]
        exact alookup_dictInsert_self acc k s
      · have hkey : key ∈ rest.map Prod.fst :=
          List.mem_map.mpr ⟨(key, val), htail, rfl⟩
        exact ih (dictInsert acc k s) qp key val hnd.2 htail h

/-- Variant of the fixture dataset whose x axis is stored descending. -/
def dsDesc : Dataset := { dsMain with coords := [{ axLon with values := [20, 10] }, axLat, axTime] }

/-- C4: for every named axis in `subsets` (other than bbox-controlled x/y)
with requested range `[lo, hi]`, the slice entered into `query_params` is
oriented to the stored coordinate order: endpoints swapped to `(hi, lo)` when
the first stored coordinate exceeds the last, `(lo, hi)` otherwise. -/
theorem claim_C4_slice_orientation (data : Dataset)
    (subsets : List (String × List SubVal)) (qp : List (String × QP))
    (key : String) (lo hi : Int) (vs : List Int) (vFirst vLast : Int)
    (hnd : (subsets.map Prod.fst).Nodup)
    (hmem : (key, [SubVal.num lo, SubVal.num hi]) ∈ subsets)
    (hbuild : buildSubsetParams data subsets = .ok qp)
    (hvs : coordValues data key = some vs)
    (hfirst : vs.head? = some vFirst) (hlast : vs.getLast? = some vLast) :
    alookup key qp = some (if vLast < vFirst then QP.sl (.num hi) (.num lo)
                           else QP.sl (.num lo) (.num hi)) := by
  obtain ⟨s, hs, hl⟩ :=
    buildSubsetParamsAux_lookup data subsets [] qp key _ hnd hmem hbuild
  rw [hl]
  simp only [orientSlice, hvs, hfirst, hlast, List.get?] at hs
  by_cases hcmp : vLast < vFirst
  · rw [if_pos hcmp] at hs ⊢
    injection hs with hs
    rw [hs]
  · rw [if_neg hcmp] at hs ⊢
    injection hs with hs
    rw [hs]

/-- Witness for C4 at a concrete descending axis. -/
theorem claim_C4_witness :
    alookup "lon" [("lon", QP.sl (SubVal.num 18) (SubVal.num 12))] =
      some (if (10 : Int) < 20 then QP.sl (.num 18) (.num 12)
            else QP.sl (.num 12) (.num 18)) :=
  claim_C4_slice_orientation dsDesc [("lon", [.num 12, .num 18])]
    [("lon", QP.sl (SubVal.num 18) (SubVal.num 12))] "lon" 12 18 [20, 10] 20 10
    (by decide) (by decide) (by decide) (by decide) (by decide) (by decide)

/-- C7: the datetime normalizer yields a bare year string without the
monthly-ensemble marker, a `year-month` string with a zero-padded two-digit
month (month = months-since-epoch mod 12 plus 1, always in 1..12) with the
marker, and swallows conversion failures, yielding an absent result. -/
theorem claim_C7_datetime_normalizer (locator : String) (sample : Option Int) :
    (sample = none → toDatetimeString locator sample = none) ∧
    (∀ m : Int, sample = some m →
      (containsSub locator "monthly_ens" = true →
        1 ≤ m % 12 + 1 ∧ m % 12 + 1 ≤ 12 ∧
        toDatetimeString locator sample =
          some (toString (m / 12 + 1970) ++ "-" ++ zfill 2 (toString (m % 12 + 1))) ∧
        (zfill 2 (toString (m % 12 + 1))).length = 2) ∧
      (containsSub locator "monthly_ens" = false →
        toDatetimeString locator sample = some (toString (m / 12 + 1970)))) := by
  constructor
  · intro h
    subst h
    rfl
  · intro m hm
    subst hm
    constructor
    · intro hmark
      have h0 : (0 : Int) ≤ m % 12 := Int.emod_nonneg m (by norm_num)
      have h12 : m % 12 < 12 := Int.emod_lt_of_pos m (by norm_num)
      refine ⟨by omega, by omega, ?_, ?_⟩
      · simp [toDatetimeString, hmark]
      · have hlow : (1 : Int) ≤ m % 12 + 1 := by omega
        have hhigh : m % 12 + 1 ≤ 12 := by omega
        set mo := m % 12 + 1 with hmo
        interval_cases mo <;> decide
    · intro hmark
      simp [toDatetimeString, hmark]

/-- Witness for C7 at the sample 25 months (February 1972) under a
monthly-ensemble locator. -/
theorem claim_C7_witness :
    containsSub "cmip5_monthly_ens_x.nc" "monthly_ens" = true ∧
    toDatetimeString "cmip5_monthly_ens_x.nc" (some 25) =
      some (toString ((25 : Int) / 12 + 1970) ++ "-" ++ zfill 2 (toString ((25 : Int) % 12 + 1))) :=
  ⟨by decide,
   (((claim_C7_datetime_normalizer "cmip5_monthly_ens_x.nc" (some 25)).2 25 rfl).1
      (by decide)).2.2.1⟩

/-- When none of the three facet keys occurs, the facet resolution pass is a
no-op. -/
theorem facetResolution_no_facets (env : String → Option Dataset) (st : ProvState)
    (subsets : List (String × List SubVal))
    (h1 : alookup "scenario" subsets = none)
    (h2 : alookup "percentile" subsets = none)
    (h3 : alookup "season" subsets = none) :
    facetResolution env st subsets = (st, .ok subsets) := by
  simp only [facetResolution, facetScenario, facetPercentile, facetSeason, h1, h2, h3]

/-- C1 (amended): multi-valued scenario selections are rejected with a
query-class error before any locator mutation, and so are multi-valued season
selections (provided the earlier scenario/percentile branches did not act);
the percentile branch, however, performs no multiplicity check: any selection
other than `[50]` substitutes `pctl{first value}` into the locator and
re-resolves, without error. -/
theorem claim_C1_facet_multiplicity (env : String → Option Dataset)
    (st : ProvState) (subsets : List (String × List SubVal)) :
    (∀ l, alookup "scenario" subsets = some l → 1 < l.length →
      facetResolution env st subsets =
        (st, .error (.queryError "multiple scenario are not supported"))) ∧
    (∀ l, alookup "scenario" subsets = none → alookup "percentile" subsets = none →
      alookup "season" subsets = some l → 1 < l.length →
      facetResolution env st subsets =
        (st, .error (.queryError "multiple seasons are not supported"))) ∧
    (∀ l v, alookup "scenario" subsets = none → alookup "season" subsets = none →
      alookup "percentile" subsets = some l → l ≠ [SubVal.num 50] →
      l.get? 0 = some v →
      facetResolution env st subsets =
        ({ st with data := pyReplace st.data "pctl50" ("pctl" ++ pyStr v),
                   dataset := open_data env (pyReplace st.data "pctl50" ("pctl" ++ pyStr v)),
                   openCount := st.openCount + 1 },
         .ok (popKey "percentile" subsets))) := by
  refine ⟨?_, ?_, ?_⟩
  · intro l hl hlen
    simp [facetResolution, facetScenario, hl, hlen]
  · intro l h1 h2 hl hlen
    simp [facetResolution, facetScenario, facetPercentile, facetSeason, h1, h2, hl, hlen]
  · intro l v h1 h3 hl hne hv
    have hps : alookup "season" (popKey "percentile" subsets) = alookup "season" subsets :=
      alookup_popKey_ne _ (by decide)
    have hv' : l[0]? = some v := by
      rw [← List.get?_eq_getElem?]
      exact hv
    simp [facetResolution, facetScenario, facetPercentile, facetSeason,
          h1, hl, hne, hv', hps, h3, open_data]

/-- Witness for C1 at concrete selections. -/
theorem claim_C1_witness :
    facetResolution env0 st0 [("scenario", [.str "RCP4.5", .str "RCP8.5"])] =
      (st0, .error (.queryError "multiple scenario are not supported")) ∧
    facetResolution env0 st0 [("season", [.str "MAM", .str "JJA"])] =
      (st0, .error (.queryError "multiple seasons are not supported")) ∧
    facetResolution env0 st0 [("percentile", [.num 25, .num 75])] =
      ({ st0 with data := pyReplace st0.data "pctl50" ("pctl" ++ pyStr (.num 25)),
                  dataset := open_data env0 (pyReplace st0.data "pctl50" ("pctl" ++ pyStr (.num 25))),
                  openCount := st0.openCount + 1 },
       .ok (popKey "percentile" [("percentile", [SubVal.num 25, SubVal.num 75])])) :=
  ⟨(claim_C1_facet_multiplicity env0 st0
      [("scenario", [.str "RCP4.5", .str "RCP8.5"])]).1
      [.str "RCP4.5", .str "RCP8.5"] (by decide) (by decide),
   (claim_C1_facet_multiplicity env0 st0 [("season", [.str "MAM", .str "JJA"])]).2.1
      [.str "MAM", .str "JJA"] (by decide) (by decide) (by decide) (by decide),
   (claim_C1_facet_multiplicity env0 st0 [("percentile", [.num 25, .num 75])]).2.2
      [.num 25, .num 75] (SubVal.num 25)
      (by decide) (by decide) (by decide) (by decide) (by decide)⟩

/-- Counterexample for C1 as stated: a two-valued percentile selection is not
rejected — the query succeeds and the locator has been mutated (to `pctl25`)
with a dataset re-resolution. -/
theorem claim_C1_counterexample :
    queryOk (query env0 st0 (some ["tas"]) [("percentile", [.num 25, .num 75])]
              [] none "json").2 = true ∧
    (query env0 st0 (some ["tas"]) [("percentile", [.num 25, .num 75])]
              [] none "json").1.data = "cmip5_RCP2.6_DJF_pctl25.nc" ∧
    st0.data = "cmip5_RCP2.6_DJF_pctl50.nc" ∧
    (query env0 st0 (some ["tas"]) [("percentile", [.num 25, .num 75])]
              [] none "json").1.openCount = st0.openCount + 1 := by
  decide

/-- C5: against a locator still carrying the default `2.6` and `pctl50`
tokens, selecting scenario `RCP8.5` mutates the locator (which then contains
`8.5`) and re-resolves; selecting `RCP2.6` or `hist` leaves the state
untouched; selecting percentile `[50]` leaves the state untouched; selecting
percentile `[25]` mutates the locator to one containing `pctl25` and
re-resolves. -/
theorem claim_C5_facet_selection (env : String → Option Dataset) (st : ProvState)
    (h26 : containsSub st.data "2.6" = true)
    (h50 : containsSub st.data "pctl50" = true) :
    (facetResolution env st [("scenario", [.str "RCP8.5"])] =
       ({ st with data := pyReplace st.data "2.6" "8.5",
                  dataset := open_data env (pyReplace st.data "2.6" "8.5"),
                  openCount := st.openCount + 1 }, .ok []) ∧
     containsSub (pyReplace st.data "2.6" "8.5") "8.5" = true) ∧
    facetResolution env st [("scenario", [.str "RCP2.6"])] = (st, .ok []) ∧
    facetResolution env st [("scenario", [.str "hist"])] = (st, .ok []) ∧
    facetResolution env st [("percentile", [.num 50])] = (st, .ok []) ∧
    (facetResolution env st [("percentile", [.num 25])] =
       ({ st with data := pyReplace st.data "pctl50" "pctl25",
                  dataset := open_data env (pyReplace st.data "pctl50" "pctl25"),
                  openCount := st.openCount + 1 }, .ok []) ∧
     containsSub (pyReplace st.data "pctl50" "pctl25") "pctl25" = true) := by
  have hstrip : pyReplace "RCP8.5" "RCP" "" = "8.5" := by decide
  refine ⟨⟨?_, ?_⟩, ?_, ?_, ?_, ?_, ?_⟩
  · simp [facetResolution, facetScenario, facetPercentile, facetSeason,
          alookup, popKey, hstrip]
  · exact containsSub_pyReplace "8.5" (by decide) h26
  · simp [facetResolution, facetScenario, facetPercentile, facetSeason, alookup, popKey]
  · simp [facetResolution, facetScenario, facetPercentile, facetSeason, alookup, popKey]
  · simp [facetResolution, facetScenario, facetPercentile, facetSeason, alookup, popKey]
  · have hcat : "pctl" ++ pyStr (SubVal.num 25) = "pctl25" := by decide
    simp [facetResolution, facetScenario, facetPercentile, facetSeason,
          alookup, popKey, hcat]
  · exact containsSub_pyReplace "pctl25" (by decide) h50

/-- Witness for C5 at the fixture state. -/
theorem claim_C5_witness :
    containsSub st0.data "2.6" = true ∧ containsSub st0.data "pctl50" = true ∧
    facetResolution env0 st0 [("scenario", [.str "RCP2.6"])] = (st0, .ok []) ∧
    facetResolution env0 st0 [("percentile", [.num 50])] = (st0, .ok []) :=
  ⟨by decide, by decide,
   (claim_C5_facet_selection env0 st0 (by decide) (by decide)).2.1,
   (claim_C5_facet_selection env0 st0 (by decide) (by decide)).2.2.2.1⟩

/-- C9 (amended): once the locator no longer carries the default token
(`2.6` / `pctl50`), selecting a further non-default value of that facet
leaves the locator unchanged (the substitution is a no-op) and raises no
error, but the code still invokes the resolver on the unchanged locator and
replaces the dataset handle with the fresh resolution — it does not answer
from the previously resolved handle. -/
theorem claim_C9_noop_substitution_reopens (env : String → Option Dataset)
    (st : ProvState) (v : String) (p : Int)
    (h26 : containsSub st.data "2.6" = false)
    (h50 : containsSub st.data "pctl50" = false)
    (hv1 : v ≠ "RCP2.6") (hv2 : v ≠ "hist") (hp : p ≠ 50) :
    facetResolution env st [("scenario", [.str v])] =
      ({ st with dataset := open_data env st.data, openCount := st.openCount + 1 },
       .ok []) ∧
    facetResolution env st [("percentile", [.num p])] =
      ({ st with dataset := open_data env st.data, openCount := st.openCount + 1 },
       .ok []) := by
  constructor
  · have hno : pyReplace st.data "2.6" (pyReplace v "RCP" "") = st.data :=
      pyReplace_no_match _ h26
    simp [facetResolution, facetScenario, facetPercentile, facetSeason,
          alookup, popKey, hv1, hv2, hno]
  · have hno : pyReplace st.data "pctl50" ("pctl" ++ pyStr (SubVal.num p)) = st.data :=
      pyReplace_no_match _ h50
    simp [facetResolution, facetScenario, facetPercentile, facetSeason,
          alookup, popKey, hp, hno]

/-- Provider state whose locator was already swapped away from the defaults
(scenario `RCP8.5`, percentile `pctl25`). -/
def st9 : ProvState := { st0 with data := "cmip5_RCP8.5_DJF_pctl25.nc" }

/-- Witness for C9 at the swapped fixture state. -/
theorem claim_C9_witness :
    containsSub st9.data "2.6" = false ∧ containsSub st9.data "pctl50" = false ∧
    facetResolution env0 st9 [("scenario", [.str "RCP4.5"])] =
      ({ st9 with dataset := open_data env0 st9.data, openCount := st9.openCount + 1 },
       .ok []) :=
  ⟨by decide, by decide,
   (claim_C9_noop_substitution_reopens env0 st9 "RCP4.5" 75
      (by decide) (by decide) (by decide) (by decide) (by decide)).1⟩

/-- Counterexample for C9 as stated: in the swapped state, selecting another
non-default scenario leaves the locator unchanged and raises no error, yet
the dataset handle is not left unchanged — the resolver runs again (open
count increments) and, the re-resolved locator failing to open here, the
handle becomes absent; the subsequent query is not answered from the
previously resolved dataset but fails generically. -/
theorem claim_C9_counterexample :
    (facetResolution env1 st9 [("scenario", [.str "RCP4.5"])]).1.data = st9.data ∧
    (facetResolution env1 st9 [("scenario", [.str "RCP4.5"])]).2 = .ok [] ∧
    st9.dataset = some dsMain ∧
    (facetResolution env1 st9 [("scenario", [.str "RCP4.5"])]).1.dataset = none ∧
    (facetResolution env1 st9 [("scenario", [.str "RCP4.5"])]).1.openCount
      = st9.openCount + 1 ∧
    (query env1 st9 (some ["tas"]) [("scenario", [.str "RCP4.5"])] [] none "json").2 =
      .error (.genericError "TypeError: NoneType object is not subscriptable") := by
  decide

/-- C3 (amended): the query-class error for mixing bbox with named spatial
subsets is raised only when the bbox is combined with named subsets on BOTH
the x and the y axis; it is raised before the slice mapping is applied, with
the provider state unchanged.  (When only one of x/y is named alongside a
bbox, no error is raised and the bbox slices overwrite the named one — see
the counterexample.) -/
theorem claim_C3_bbox_exclusivity (env : String → Option Dataset) (st : ProvState)
    (rangeSubset : List String) (subsets : List (String × List SubVal))
    (bbox : List Int) (dt : Option String) (fmt : String)
    (ds data : Dataset) (qp : List (String × QP))
    (hsc : alookup "scenario" subsets = none)
    (hpc : alookup "percentile" subsets = none)
    (hse : alookup "season" subsets = none)
    (hds : st.dataset = some ds)
    (hsel : selectVars ds rangeSubset = some data)
    (hx : (alookup st.props.xAxisLabel subsets).isSome)
    (hy : (alookup st.props.yAxisLabel subsets).isSome)
    (hbox : bbox ≠ [])
    (hqp : buildSubsetParams data subsets = .ok qp) :
    query env st (some rangeSubset) subsets bbox dt fmt =
      (st, .error (.queryError "bbox and subsetting by coordinates are exclusive")) := by
  have hfacet := facetResolution_no_facets env st subsets hsc hpc hse
  have hsub_ne : subsets ≠ [] := by
    intro hc
    rw [hc] at hx
    simp [alookup] at hx
  have hfast : ¬(rangeSubset = [] ∧ subsets = [] ∧ fmt ≠ "json") :=
    fun hc => hsub_ne hc.2.1
  have hbb : applyBbox st subsets bbox qp =
      .error (.queryError "bbox and subsetting by coordinates are exclusive") := by
    unfold applyBbox
    rw [if_pos hbox, if_pos ⟨hx, hy, List.length_pos.mpr hbox⟩]
  have hstruct : structuralPhase st data subsets bbox dt =
      .error (.queryError "bbox and subsetting by coordinates are exclusive") := by
    simp only [structuralPhase, hx, hqp, hbb]
    simp
  simp only [query, hfacet, Option.getD, queryMain, hds, hsel, hstruct]
  simp [hfast]

/-- Witness for C3 at a concrete query naming both spatial axes and a bbox. -/
theorem claim_C3_witness :
    query env0 st0 (some ["tas"])
        [("lon", [.num 12, .num 18]), ("lat", [.num 41, .num 49])]
        [10, 40, 20, 50] none "json" =
      (st0, .error (.queryError "bbox and subsetting by coordinates are exclusive")) :=
  claim_C3_bbox_exclusivity env0 st0 ["tas"]
    [("lon", [.num 12, .num 18]), ("lat", [.num 41, .num 49])]
    [10, 40, 20, 50] none "json" dsMain dsMain
    [("lon", QP.sl (.num 12) (.num 18)), ("lat", QP.sl (.num 49) (.num 41))]
    (by decide) (by decide) (by decide) (by decide) (by decide)
    (by decide) (by decide) (by decide) (by decide)

/-- Counterexample for C3 as stated: a bbox combined with a named subset on
the x axis only raises no error — the query succeeds (the bbox slices
overwrite the named x slice) and the state is unchanged. -/
theorem claim_C3_counterexample :
    queryOk (query env0 st0 (some ["tas"]) [("lon", [.num 12, .num 18])]
              [10, 40, 20, 50] none "json").2 = true ∧
    (query env0 st0 (some ["tas"]) [("lon", [.num 12, .num 18])]
              [10, 40, 20, 50] none "json").1 = st0 := by
  decide

/-- C6: whenever a validly subsetted result has zero extent on the x or the y
axis, the query raises the distinguished no-data error — a constructor
different from the query-class error. -/
theorem claim_C6_empty_extent_no_data (env : String → Option Dataset)
    (st : ProvState) (rangeSubset : List String)
    (subsets : List (String × List SubVal)) (bbox : List Int)
    (dt : Option String) (fmt : String) (ds data data2 : Dataset)
    (xs ys : List Int)
    (hsc : alookup "scenario" subsets = none)
    (hpc : alookup "percentile" subsets = none)
    (hse : alookup "season" subsets = none)
    (hfast : ¬(rangeSubset = [] ∧ subsets = [] ∧ fmt ≠ "json"))
    (hds : st.dataset = some ds)
    (hsel : selectVars ds rangeSubset = some data)
    (hstruct : structuralPhase st data subsets bbox dt = .ok data2)
    (hxs : coordValues data2 st.xField = some xs)
    (hys : coordValues data2 st.yField = some ys)
    (hempty : xs.length = 0 ∨ ys.length = 0) :
    query env st (some rangeSubset) subsets bbox dt fmt =
      (st, .error (.noDataError "No data found")) ∧
    (∀ m m' : String, PError.noDataError m ≠ PError.queryError m') := by
  constructor
  · have hfacet := facetResolution_no_facets env st subsets hsc hpc hse
    simp only [query, hfacet, Option.getD, queryMain, hds, hsel, hstruct, hxs, hys]
    have hempty' : xs = [] ∨ ys = [] := by
      rcases hempty with h | h
      · exact Or.inl (List.length_eq_zero.mp h)
      · exact Or.inr (List.length_eq_zero.mp h)
    rcases hempty' with h | h <;> simp [hfast, h]
  · intro m m' hc
    exact PError.noConfusion hc

/-- Witness for C6: an x range beyond the stored coordinates empties the x
axis and the query reports no data. -/
theorem claim_C6_witness :
    query env0 st0 (some ["tas"]) [("lon", [.num 100, .num 200])] [] none "json" =
      (st0, .error (.noDataError "No data found")) :=
  (claim_C6_empty_extent_no_data env0 st0 ["tas"] [("lon", [.num 100, .num 200])]
    [] none "json" dsMain dsMain
    { dsMain with coords := [{ axLon with values := [] }, axLat, axTime] }
    [] [50, 40]
    (by decide) (by decide) (by decide) (by decide) (by decide) (by decide)
    (by decide) (by decide) (by decide) (by decide)).1

/-- Whether a query result is the distinguished connection-class error. -/
def isConnectionError : Except PError QueryOutput → Bool
  | .error (.connectionError _) => true
  | _ => false

/-- C2, evaluated at the failing input: when the re-resolved locator fails to
open during a query-time facet swap, `open_data` swallows the failure and
returns an absent handle; the query then fails with a generic error, not the
distinguished connection-class error the spec requires.  (At construction the
wrapper in `__init__` does surface a connection-class error, as the last
conjunct shows.) -/
theorem claim_C2_open_failure_swallowed :
    open_data env1 "cmip5_RCP8.5_DJF_pctl50.nc" = none ∧
    (query env1 st0 (some ["tas"]) [("scenario", [.str "RCP8.5"])]
        [] none "json").1.dataset = none ∧
    (query env1 st0 (some ["tas"]) [("scenario", [.str "RCP8.5"])]
        [] none "json").2 =
      .error (.genericError "TypeError: NoneType object is not subscriptable") ∧
    isConnectionError (query env1 st0 (some ["tas"]) [("scenario", [.str "RCP8.5"])]
        [] none "json").2 = false ∧
    initProvider env1 ⟨"cmip5_RCP8.5_DJF_pctl50.nc", none, none, none⟩ =
      .error (.connectionError "AttributeError: NoneType object has no attribute coords") := by
  decide

/-- A successful property derivation pins down `fields` as the names of the
variables of rank at least 3. -/
theorem getCoverageProperties_fields (locator : String) (xF yF tF : Option String)
    (dsOpt : Option Dataset) (props : CoverageProperties) (xl yl tl : String)
    (h : getCoverageProperties locator xF yF tF dsOpt = .ok (props, xl, yl, tl)) :
    ∃ ds, dsOpt = some ds ∧
      props.fields = (ds.vars.filter (fun v => 3 ≤ v.rank)).map (fun v => v.name) := by
  cases dsOpt with
  | none => simp [getCoverageProperties] at h
  | some ds =>
    refine ⟨ds, rfl, ?_⟩
    unfold getCoverageProperties at h
    repeat' split at h
    all_goals try exact Except.noConfusion h
    all_goals cases h
    all_goals simp_all

/-- C8: in every successfully constructed provider, `fields` is exactly the
list of variable names of rank at least 3; every listed name belongs to a
variable of rank at least 3, and (under the dict-given uniqueness of variable
names) no variable of rank 2 or lower ever appears. -/
theorem claim_C8_fields_rank (env : String → Option Dataset) (pd : ProviderDef)
    (st : ProvState) (ds : Dataset)
    (hinit : initProvider env pd = .ok st) (hds : st.dataset = some ds) :
    st.fields = (ds.vars.filter (fun v => 3 ≤ v.rank)).map (fun v => v.name) ∧
    (∀ n, n ∈ st.fields → ∃ v, v ∈ ds.vars ∧ v.name = n ∧ 3 ≤ v.rank) ∧
    ((ds.vars.map (fun v => v.name)).Nodup →
      ∀ v, v ∈ ds.vars → v.rank < 3 → v.name ∉ st.fields) := by
  simp only [initProvider] at hinit
  cases hgp : getCoverageProperties pd.data pd.xField pd.yField pd.timeField
      (open_data env pd.data) with
  | error e => rw [hgp] at hinit; exact Except.noConfusion hinit
  | ok t =>
    obtain ⟨props, xl, yl, tl⟩ := t
    rw [hgp] at hinit
    injection hinit with hst
    have hfields_st : st.fields = props.fields := by rw [← hst]
    have hdataset_st : st.dataset = open_data env pd.data := by rw [← hst]
    rw [hdataset_st] at hds
    obtain ⟨ds', hd', hfields⟩ :=
      getCoverageProperties_fields _ _ _ _ _ _ _ _ _ hgp
    rw [hd'] at hds
    have hde : ds' = ds := by
      injection hds
    subst hde
    refine ⟨hfields_st.trans hfields, ?_, ?_⟩
    · intro n hn
      rw [hfields_st, hfields] at hn
      simp only [List.mem_map, List.mem_filter] at hn
      obtain ⟨v, ⟨hv, hr⟩, hname⟩ := hn
      exact ⟨v, hv, hname, by simpa using hr⟩
    · intro hnd v hv hrank hmem
      rw [hfields_st, hfields] at hmem
      simp only [List.mem_map, List.mem_filter] at hmem
      obtain ⟨u, ⟨hu, hr⟩, hname⟩ := hmem
      have : u = v := List.inj_on_of_nodup_map hnd hu hv hname
      subst this
      have : 3 ≤ u.rank := by simpa using hr
      omega

/-- Witness for C8 at the fixture construction. -/
theorem claim_C8_witness :
    st0.fields = (dsMain.vars.filter (fun v => 3 ≤ v.rank)).map (fun v => v.name) :=
  (claim_C8_fields_rank env0 ⟨locDefault, none, none, none⟩ st0 dsMain
    (by decide) (by decide)).1

/-- With a non-empty variable list the fast path is skipped, so the two
native-return outputs are unreachable. -/
theorem queryMain_not_native (st : ProvState) (rs : List String)
    (subs : List (String × List SubVal)) (bbox : List Int)
    (dt : Option String) (fmt : String) (hrs : rs ≠ []) :
    (∀ l, queryMain st rs subs bbox dt fmt ≠ .ok (.nativeFile l)) ∧
    (∀ hd, queryMain st rs subs bbox dt fmt ≠ .ok (.nativeZarr hd)) := by
  have hfast : ¬(rs = [] ∧ subs = [] ∧ fmt ≠ "json") := fun hc => hrs hc.1
  unfold queryMain
  rw [if_neg hfast]
  constructor
  · intro l
    repeat' split
    all_goals simp
  · intro hd
    repeat' split
    all_goals simp

/-- C10: omitting the variable list is the same call as passing `['tas']`
(the Python default); consequently a query with an omitted variable list can
never return either fast-path native output, while explicitly passing an
empty list can (last conjunct). -/
theorem claim_C10_default_range_subset :
    (∀ (env : String → Option Dataset) (st : ProvState)
       (subsets : List (String × List SubVal)) (bbox : List Int)
       (dt : Option String) (fmt : String),
       query env st none subsets bbox dt fmt =
         query env st (some ["tas"]) subsets bbox dt fmt) ∧
    (∀ (env : String → Option Dataset) (st : ProvState)
       (subsets : List (String × List SubVal)) (bbox : List Int)
       (dt : Option String) (fmt : String) (l : String),
       (query env st none subsets bbox dt fmt).2 ≠ .ok (.nativeFile l)) ∧
    (∀ (env : String → Option Dataset) (st : ProvState)
       (subsets : List (String × List SubVal)) (bbox : List Int)
       (dt : Option String) (fmt : String) (hd : Option Dataset),
       (query env st none subsets bbox dt fmt).2 ≠ .ok (.nativeZarr hd)) ∧
    query env0 st0 (some []) [] [] none "nc" = (st0, .ok (.nativeFile st0.data)) := by
  refine ⟨fun _ _ _ _ _ _ => rfl, ?_, ?_, by decide⟩
  · intro env st subsets bbox dt fmt l
    unfold query
    cases hf : facetResolution env st subsets with
    | mk st1 r =>
      cases r with
      | error e => simp
      | ok subs =>
        simp only [Option.getD]
        exact (queryMain_not_native st1 ["tas"] subs bbox dt fmt (by simp)).1 l
  · intro env st subsets bbox dt fmt hd
    unfold query
    cases hf : facetResolution env st subsets with
    | mk st1 r =>
      cases r with
      | error e => simp
      | ok subs =>
        simp only [Option.getD]
        exact (queryMain_not_native st1 ["tas"] subs bbox dt fmt (by simp)).2 hd

/-- Witness for C10 at concrete arguments. -/
theorem claim_C10_witness :
    query env0 st0 none [] [] none "nc" = query env0 st0 (some ["tas"]) [] [] none "nc" ∧
    (query env0 st0 none [] [] none "nc").2 ≠ .ok (.nativeFile "other.nc") :=
  ⟨claim_C10_default_range_subset.1 env0 st0 [] [] none "nc",
   claim_C10_default_range_subset.2.1 env0 st0 [] [] none "nc" "other.nc"⟩
